import Mathlib

/-!
Verification development for the `test_dependency_overrides` repository.

The repository contains three FastAPI application variants:
  * `src/app/main.py`       — embedded below in namespace `App`
  * `src/test_1/main_v1.py` — embedded below in namespace `V1`
  * `src/test_2/main_v2.py` — embedded below in namespace `V2`

Python dictionaries (both JSON payloads and the `dependency_overrides`
table) are modelled as insertion-ordered association lists with unique
keys; `dictSet` models `d[k] = v` / `d.update({k: v})` (replace in place
when the key exists, append otherwise), `setdefault` models
`d.setdefault(k, v)` and `dpop` models `d.pop(k, None)`.
Object identity is modelled by a `Nat` id drawn from an allocation
counter, and each application variant's request handler is embedded as
an explicit state-passing function over a store mapping ids to mutable
service state.
-/

set_option autoImplicit false

/-- First value bound to key `k`, mirroring a Python dict lookup. -/
def alookup {K V : Type} [DecidableEq K] : List (K × V) → K → Option V
  | [], _ => none
  | (k0, v) :: rest, k => if k0 = k then some v else alookup rest k

/-- `d[k] = v` on a Python dict: replace in place if present, else append. -/
def dictSet {K V : Type} [DecidableEq K] : List (K × V) → K → V → List (K × V)
  | [], k, v => [(k, v)]
  | (k0, v0) :: rest, k, v =>
      if k0 = k then (k, v) :: rest else (k0, v0) :: dictSet rest k v

/-- `d.setdefault(k, v)`: insert only when the key is absent. -/
def setdefault {K V : Type} [DecidableEq K] (d : List (K × V)) (k : K) (v : V) :
    List (K × V) :=
  match alookup d k with
  | some _ => d
  | none => d ++ [(k, v)]

/-- `d.pop(k, None)` restricted to its effect on the table: remove the
entry for `k` when present, never an error when absent. -/
def dpop {K V : Type} [DecidableEq K] (d : List (K × V)) (k : K) : List (K × V) :=
  d.filter (fun p => decide (p.1 ≠ k))

/-- The keys of an association list, in order. -/
def dkeys {K V : Type} (d : List (K × V)) : List K := d.map Prod.fst

/-- Uniqueness of keys: the dict invariant. -/
def KeysUnique {K V : Type} (d : List (K × V)) : Prop := (dkeys d).Nodup

/-- JSON-ish values that actually occur in the three variants' payloads. -/
inductive JsonVal : Type
  | str (s : String)
  | bool (b : Bool)
  | listStr (l : List String)
  | obj (o : List (String × String))
  deriving DecidableEq, Repr

/-- A JSON object payload: insertion-ordered string-keyed dict. -/
def Payload : Type := List (String × JsonVal)

instance : DecidableEq Payload := by
  unfold Payload; infer_instance

instance : Repr Payload := by
  unfold Payload; infer_instance

/-- The parts of an inbound HTTP request the code reads: the client
address (`request.client`, whose `host` we keep; `none` models a request
with no client), the `debugging` header (read by v1) and the
`X-Debugging` header (read by the `App` variant). A `none` header is an
absent header; `some ""` is a present header with an empty value. -/
structure Request : Type where
  clientHost : Option String
  debugging : Option String
  xDebugging : Option String
  deriving DecidableEq, Repr

/-- Python truthiness of an `Optional[str]`: `None` and `""` are falsy. -/
def truthyOptStr : Option String → Bool
  | none => false
  | some s => !(s = "")

namespace App

/-- Mutable state of `BaseDataService` (and, by inheritance, of
`AuditDataService` and `AnalyticsService`): the two instance fields set
in `BaseDataService.__init__`. -/
structure BaseState : Type where
  request : Option Request
  debugging_header : Option String
  deriving DecidableEq, Repr

/-- A freshly constructed service: both fields start as `None`. -/
def newService : BaseState := { request := none, debugging_header := none }

/-- `BaseDataService.bind_context`: rebinds the two fields and returns
`self` (identity of the returned object is handled by the caller). -/
def bind_context (s : BaseState) (request : Request) (debugging_header : Option String) :
    BaseState :=
  let _ := s
  { request := some request, debugging_header := debugging_header }

/-- `AuditDataService.inherit_context` (and the `AnalyticsService`
override, which just delegates to it): copy both fields from `parent`. -/
def inherit_context (s : BaseState) (parent : BaseState) : BaseState :=
  let _ := s
  { request := parent.request, debugging_header := parent.debugging_header }

/-- `client = self.request.client if self.request else None` followed by
`getattr(client, "host", "unknown")`. -/
def hostOf (request : Option Request) : String :=
  match request with
  | none => "unknown"
  | some r =>
      match r.clientHost with
      | none => "unknown"
      | some h => h

/-- The log lines emitted by one call to `mock_db_request`: one line iff
`self.debugging_header` is truthy (non-`None` and non-empty). -/
def debugLogs (s : BaseState) : List String :=
  match s.debugging_header with
  | none => []
  | some h =>
      if h = "" then []
      else ["Debugging " ++ "'" ++ h ++ "'" ++ " for " ++ hostOf s.request]

/-- `BaseDataService.mock_db_request`: emits the optional debug log line
and returns `{"status": "ok"}`. Every attribute access on a possibly
unbound context is guarded in the source, so the function is total. -/
def mock_db_request (s : BaseState) : List String × Payload :=
  (debugLogs s, [("status", JsonVal.str "ok")])

/-- `AuditDataService.gather_metrics`: fetch, then
`payload.update({"audit": "complete"})`. -/
def gather_metrics (s : BaseState) : List String × Payload :=
  let r := mock_db_request s
  (r.1, dictSet r.2 "audit" (JsonVal.str "complete"))

/-- `AnalyticsService.build_response`: gather metrics, then
`payload.update({"service": "analytics"})`. -/
def build_response (s : BaseState) : List String × Payload :=
  let r := gather_metrics s
  (r.1, dictSet r.2 "service" (JsonVal.str "analytics"))

end App

/-- The dependency-factory callables used as keys of
`app.dependency_overrides` across the variants. -/
inductive FactoryKey : Type
  | provide_base_service_singleton
  | provide_audit_service_singleton
  | provide_analytics_service_singleton
  | di_data_service
  deriving DecidableEq, Repr

/-- The override table `app.dependency_overrides`. Every override
installed by this repository is a zero-argument closure returning one
fixed instance, so a table value is modelled by the id of the instance
the closure returns. -/
def OverrideTable : Type := List (FactoryKey × Nat)

instance : DecidableEq OverrideTable := by
  unfold OverrideTable; infer_instance

instance : Repr OverrideTable := by
  unfold OverrideTable; infer_instance

namespace App

/-- The heap of `App`-variant service objects: an allocation counter and
the state of every allocated instance, keyed by id. -/
structure Store : Type where
  nextId : Nat
  objs : List (Nat × BaseState)
  deriving DecidableEq, Repr

/-- Construct a fresh `BaseDataService()` / `AuditDataService()` /
`AnalyticsService()`: allocate a new id bound to `newService`. -/
def allocService (w : Store) : Nat × Store :=
  (w.nextId, { nextId := w.nextId + 1, objs := dictSet w.objs w.nextId newService })

/-- Read an instance's state (ids produced by `allocService` are always
present; the default is never reached on reachable stores). -/
def getObj (w : Store) (i : Nat) : BaseState :=
  (alookup w.objs i).getD newService

/-- Overwrite an instance's state in place (a mutation of `self`). -/
def setObj (w : Store) (i : Nat) (st : BaseState) : Store :=
  { nextId := w.nextId, objs := dictSet w.objs i st }

/-- FastAPI resolution of one `Depends(provider)` key: if the override
table has an entry, the installed closure returns its fixed instance;
otherwise the default `provide_*_singleton` provider constructs a fresh
instance. -/
def resolveDep (t : OverrideTable) (k : FactoryKey) (w : Store) : Nat × Store :=
  match alookup t k with
  | some i => (i, w)
  | none => allocService w

end App

namespace App

/-- Result of `CustomFastAPI.lifespan_context` startup: the populated
override table, the store after constructing the three singletons, and
the singleton ids. -/
structure Boot : Type where
  table : OverrideTable
  store : Store
  baseId : Nat
  auditId : Nat
  analyticsId : Nat
  deriving DecidableEq, Repr

/-- The startup half of `lifespan_context`: construct `base_service`,
`audit_service`, `analytics_service` and `setdefault` each override into
the (initially empty) `app.dependency_overrides`. -/
def appBoot (w : Store) : Boot :=
  let b := allocService w
  let a := allocService b.2
  let an := allocService a.2
  { table :=
      setdefault
        (setdefault
          (setdefault [] FactoryKey.provide_base_service_singleton b.1)
          FactoryKey.provide_audit_service_singleton a.1)
        FactoryKey.provide_analytics_service_singleton an.1,
    store := an.2, baseId := b.1, auditId := a.1, analyticsId := an.1 }

/-- The shutdown half of `lifespan_context`: `pop` the three override
entries (with default `None`). -/
def appShutdownTable (t : OverrideTable) : OverrideTable :=
  dpop
    (dpop
      (dpop t FactoryKey.provide_base_service_singleton)
      FactoryKey.provide_audit_service_singleton)
    FactoryKey.provide_analytics_service_singleton

/-- What one request to `GET /ping` produces. -/
structure PingResult : Type where
  serviceId : Nat
  store : Store
  logs : List String
  payload : Payload
  deriving DecidableEq, Repr

/-- One request to `GET /ping`: FastAPI resolves `get_analytics_service`,
which binds the request context on the base service
(`get_base_service`), copies it down the chain
(`get_audit_service` / `get_analytics_service` via `inherit_context`),
and the endpoint returns `await service.build_response()`. The
`debugging` value is the `X-Debugging` header of the request. -/
def handlePing (t : OverrideTable) (req : Request) (w : Store) : PingResult :=
  let debugging := req.xDebugging
  let base := resolveDep t FactoryKey.provide_base_service_singleton w
  let w2 := setObj base.2 base.1 (bind_context (getObj base.2 base.1) req debugging)
  let audit := resolveDep t FactoryKey.provide_audit_service_singleton w2
  let w4 := setObj audit.2 audit.1 (inherit_context (getObj audit.2 audit.1) (getObj audit.2 base.1))
  let analytics := resolveDep t FactoryKey.provide_analytics_service_singleton w4
  let w6 := setObj analytics.2 analytics.1
      (inherit_context (getObj analytics.2 analytics.1) (getObj analytics.2 audit.1))
  let r := build_response (getObj w6 analytics.1)
  { serviceId := analytics.1, store := w6, logs := r.1, payload := r.2 }

end App

namespace V1

/-- State of a `test_1` service instance: the class of the instance
(for `self.__class__.__name__`) and the `request` attribute set by
`MockDatabaseService.__init__`. `none` models an instance whose request
attribute holds `None`, i.e. a service with no bound request context. -/
structure ServiceV1 : Type where
  cls : String
  request : Option Request
  deriving DecidableEq, Repr

/-- The log lines of one `get_request` call on a bound request:
`request.headers.get("debugging")`, logged iff truthy. -/
def v1DebugLogs (r : Request) : List String :=
  match r.debugging with
  | none => []
  | some h => if h = "" then [] else ["Debugging header received: " ++ h]

/-- `MockDatabaseService.get_request`: reads
`self.request.headers.get("debugging")` — an attribute access that
raises when `self.request` is `None` — optionally logs, and returns
`{"rows": ["mocked", "data"]}`. -/
def get_request (s : ServiceV1) : Except String (List String × Payload) :=
  match s.request with
  | none => Except.error "AttributeError: NoneType object has no attribute headers"
  | some r => Except.ok (v1DebugLogs r, [("rows", JsonVal.listStr ["mocked", "data"])])

/-- `BusinessService.get_data`: forward to `get_request`, then
`payload["enriched"] = True`. -/
def get_data (s : ServiceV1) : Except String (List String × Payload) :=
  match get_request s with
  | Except.error e => Except.error e
  | Except.ok r => Except.ok (r.1, dictSet r.2 "enriched" (JsonVal.bool true))

/-- `DataService.get_payload`: forward to `get_data`, then
`payload["service"] = self.__class__.__name__`. -/
def get_payload (s : ServiceV1) : Except String (List String × Payload) :=
  match get_data s with
  | Except.error e => Except.error e
  | Except.ok r => Except.ok (r.1, dictSet r.2 "service" (JsonVal.str s.cls))

/-- The `test_1` app state: only an allocation counter (no overrides are
ever installed, and instances do not outlive a request). -/
structure StoreV1 : Type where
  nextId : Nat
  deriving DecidableEq, Repr

/-- One request to `GET /health` in `test_1`: `Depends(DataService)`
constructs a fresh `DataService(request)` for this request, and the
endpoint returns `await service.get_payload()`. -/
def handleHealth (req : Request) (w : StoreV1) :
    Nat × StoreV1 × Except String (List String × Payload) :=
  let sid := w.nextId
  let svc : ServiceV1 := { cls := "DataService", request := some req }
  (sid, { nextId := w.nextId + 1 }, get_payload svc)

end V1

namespace V2

/-- State of a `test_2` service instance: its class and the `params`
dict set by `MockDatabaseService.__init__`. -/
structure ServiceV2 : Type where
  cls : String
  params : List (String × String)
  deriving DecidableEq, Repr

/-- `MockDatabaseService.get_request`: returns `{"result": self.params}`. -/
def get_request (s : ServiceV2) : Payload :=
  [("result", JsonVal.obj s.params)]

/-- `BusinessService.get_data`: forward, then `payload["enriched"] = True`. -/
def get_data (s : ServiceV2) : Payload :=
  dictSet (get_request s) "enriched" (JsonVal.bool true)

/-- `DataService.get_payload`: forward, then
`payload["service"] = self.__class__.__name__`. -/
def get_payload (s : ServiceV2) : Payload :=
  dictSet (get_data s) "service" (JsonVal.str s.cls)

/-- `di_data_service`: the abstract factory, constructing a fresh
`DataService(params=params)`. -/
def di_data_service (params : List (String × String)) : ServiceV2 :=
  { cls := "DataService", params := params }

/-- The singleton built in `AppFactory.lifespan`:
`DataService(params={"name": "Alex from lifespan"})`. -/
def singleton_service : ServiceV2 :=
  di_data_service [("name", "Alex from lifespan")]

/-- The startup half of `AppFactory.lifespan`: allocate the singleton
(`sid` is its id) and `setdefault` the override for `di_data_service`. -/
def v2StartupTable (t : OverrideTable) (sid : Nat) : OverrideTable :=
  setdefault t FactoryKey.di_data_service sid

/-- The shutdown half of `AppFactory.lifespan`: the code after `yield`
is empty, so shutdown leaves the override table untouched. -/
def v2ShutdownTable (t : OverrideTable) : OverrideTable := t

end V2

section DictLemmas

variable {K V : Type} [DecidableEq K]

theorem alookup_dictSet_self (d : List (K × V)) (k : K) (v : V) :
    alookup (dictSet d k v) k = some v := by
  induction d with
  | nil => simp [dictSet, alookup]
  | cons p rest ih =>
      cases p with
      | mk k0 v0 =>
          by_cases h : k0 = k
          · simp [dictSet, h, alookup]
          · simp [dictSet, h, alookup, ih]

theorem alookup_dictSet_ne (d : List (K × V)) (k k' : K) (v : V) (h : k' ≠ k) :
    alookup (dictSet d k v) k' = alookup d k' := by
  have hk : ¬ k = k' := fun he => h he.symm
  induction d with
  | nil => simp [dictSet, alookup, hk]
  | cons p rest ih =>
      cases p with
      | mk k0 v0 =>
          by_cases h0 : k0 = k
          · subst h0
            simp [dictSet, alookup, hk]
          · simp [dictSet, h0, alookup, ih]

theorem alookup_eq_none_iff (d : List (K × V)) (k : K) :
    alookup d k = none ↔ k ∉ dkeys d := by
  induction d with
  | nil => simp [alookup, dkeys]
  | cons p rest ih =>
      cases p with
      | mk k0 v0 =>
          by_cases h : k0 = k
          · simp [alookup, h, dkeys]
          · have hk : ¬ k = k0 := fun he => h he.symm
            simp [alookup, h, dkeys, ih, hk]

theorem dictSet_length_of_absent (d : List (K × V)) (k : K) (v : V)
    (h : alookup d k = none) :
    (dictSet d k v).length = d.length + 1 := by
  induction d with
  | nil => simp [dictSet]
  | cons p rest ih =>
      cases p with
      | mk k0 v0 =>
          by_cases h0 : k0 = k
          · simp [alookup, h0] at h
          · simp [alookup, h0] at h
            simp [dictSet, h0, ih h]

theorem dpop_of_absent (d : List (K × V)) (k : K) (h : alookup d k = none) :
    dpop d k = d := by
  induction d with
  | nil => simp [dpop]
  | cons p rest ih =>
      cases p with
      | mk k0 v0 =>
          by_cases h0 : k0 = k
          · simp [alookup, h0] at h
          · simp [alookup, h0] at h
            simp [dpop, h0] at ih ⊢
            exact ih h

theorem dpop_dpop (d : List (K × V)) (k : K) :
    dpop (dpop d k) k = dpop d k := by
  simp [dpop, List.filter_filter]

theorem keysUnique_setdefault (d : List (K × V)) (k : K) (v : V)
    (h : KeysUnique d) : KeysUnique (setdefault d k v) := by
  unfold setdefault
  cases hl : alookup d k with
  | some v0 => exact h
  | none =>
      have hk : k ∉ dkeys d := (alookup_eq_none_iff d k).mp hl
      unfold KeysUnique dkeys at *
      simp [List.nodup_append, h, hk]

theorem keysUnique_dpop (d : List (K × V)) (k : K)
    (h : KeysUnique d) : KeysUnique (dpop d k) := by
  unfold KeysUnique dkeys dpop at *
  exact List.Nodup.sublist (List.Sublist.map Prod.fst (List.filter_sublist d)) h

end DictLemmas

theorem keysUnique_nil {K V : Type} : KeysUnique ([] : List (K × V)) := by
  simp [KeysUnique, dkeys]

namespace App

theorem getObj_setObj_self (w : Store) (i : Nat) (st : BaseState) :
    getObj (setObj w i st) i = st := by
  simp [getObj, setObj, alookup_dictSet_self]

theorem getObj_setObj_ne (w : Store) (i j : Nat) (st : BaseState) (h : j ≠ i) :
    getObj (setObj w i st) j = getObj w j := by
  simp [getObj, setObj, alookup_dictSet_ne _ _ _ _ h]

/-- The override table that `lifespan_context` builds at startup, spelled
out: the three singleton ids in allocation order. -/
theorem appBoot_table (w : Store) :
    (appBoot w).table
      = [(FactoryKey.provide_base_service_singleton, w.nextId),
         (FactoryKey.provide_audit_service_singleton, w.nextId + 1),
         (FactoryKey.provide_analytics_service_singleton, w.nextId + 2)] := rfl

/-- The per-request state every singleton ends up holding: the current
request and its `X-Debugging` header. -/
def boundState (r : Request) : BaseState :=
  { request := some r, debugging_header := r.xDebugging }

/-- Full characterisation of one `GET /ping` request handled while the
startup overrides are installed: the three singletons are rebound to the
current request's context (everything else in the store untouched, no
allocation), the analytics singleton is returned, and the response is
`build_response` of the bound state. -/
theorem handlePing_after_boot (w s : Store) (r : Request) :
    handlePing (appBoot w).table r s
      = { serviceId := w.nextId + 2,
          store := { nextId := s.nextId,
                     objs := dictSet (dictSet (dictSet s.objs w.nextId (boundState r))
                       (w.nextId + 1) (boundState r)) (w.nextId + 2) (boundState r) },
          logs := (build_response (boundState r)).1,
          payload := (build_response (boundState r)).2 } := by
  simp [handlePing, resolveDep, appBoot_table, alookup, allocService, getObj, setObj,
    bind_context, inherit_context, boundState, alookup_dictSet_self, Option.getD]

end App

/-- C1: While the startup overrides are installed, every two requests to
the GET endpoint resolve the service dependency to the identical
instance — the analytics singleton created at startup; with no override
installed (the empty table, and the `test_1` app which never installs
one), each request constructs a fresh instance, so two requests never
observe the same instance id. -/
theorem C1_override_instance_identity (w s : App.Store) (r1 r2 : Request) (w1 : V1.StoreV1) :
    ((App.handlePing (App.appBoot w).table r1 s).serviceId = (App.appBoot w).analyticsId
      ∧ (App.handlePing (App.appBoot w).table r2
            (App.handlePing (App.appBoot w).table r1 s).store).serviceId
          = (App.appBoot w).analyticsId)
    ∧ (App.handlePing [] r1 s).serviceId
        ≠ (App.handlePing [] r2 (App.handlePing [] r1 s).store).serviceId
    ∧ (V1.handleHealth r1 w1).1 ≠ (V1.handleHealth r2 (V1.handleHealth r1 w1).2.1).1 := by
  refine ⟨⟨rfl, rfl⟩, ?_, ?_⟩
  · show s.nextId + 2 ≠ s.nextId + 5
    omega
  · show w1.nextId ≠ w1.nextId + 1
    omega

/-- C2 counterexample: in the `test_2` variant the lifespan never removes
the override (there is no code after `yield`), so after shutdown the
override table still contains the entry for `di_data_service` — the
claim that the entry is gone after every run's shutdown is false. -/
theorem C2_counterexample :
    ¬ (alookup (V2.v2ShutdownTable (V2.v2StartupTable [] 0)) FactoryKey.di_data_service
        = none) := by
  decide

/-- C2 amended: in the `App` variant, after startup the override table
maps each factory identifier to its startup singleton and after shutdown
all three entries are gone; in the `test_2` variant the startup
registration is installed but survives shutdown unchanged. -/
theorem C2_lifecycle_override_table (w : App.Store) (sid : Nat) :
    alookup (App.appBoot w).table FactoryKey.provide_base_service_singleton
        = some (App.appBoot w).baseId
    ∧ alookup (App.appBoot w).table FactoryKey.provide_audit_service_singleton
        = some (App.appBoot w).auditId
    ∧ alookup (App.appBoot w).table FactoryKey.provide_analytics_service_singleton
        = some (App.appBoot w).analyticsId
    ∧ alookup (App.appShutdownTable (App.appBoot w).table)
        FactoryKey.provide_base_service_singleton = none
    ∧ alookup (App.appShutdownTable (App.appBoot w).table)
        FactoryKey.provide_audit_service_singleton = none
    ∧ alookup (App.appShutdownTable (App.appBoot w).table)
        FactoryKey.provide_analytics_service_singleton = none
    ∧ alookup (V2.v2StartupTable [] sid) FactoryKey.di_data_service = some sid
    ∧ alookup (V2.v2ShutdownTable (V2.v2StartupTable [] sid)) FactoryKey.di_data_service
        = some sid :=
  ⟨rfl, rfl, rfl, rfl, rfl, rfl, rfl, rfl⟩

/-- C9: removal of an override entry is idempotent — popping an absent
identifier is not an error and leaves the table unchanged, popping twice
equals popping once — and the table operations used by the lifecycles
preserve the at-most-one-entry-per-identifier invariant (which the empty
initial table satisfies). -/
theorem C9_pop_idempotent :
    (∀ (t : OverrideTable) (k : FactoryKey), alookup t k = none → dpop t k = t)
    ∧ (∀ (t : OverrideTable) (k : FactoryKey), dpop (dpop t k) k = dpop t k)
    ∧ KeysUnique ([] : OverrideTable)
    ∧ (∀ (t : OverrideTable) (k : FactoryKey) (v : Nat),
        KeysUnique t → KeysUnique (setdefault t k v))
    ∧ (∀ (t : OverrideTable) (k : FactoryKey), KeysUnique t → KeysUnique (dpop t k)) :=
  ⟨fun t k h => dpop_of_absent t k h,
   fun t k => dpop_dpop t k,
   keysUnique_nil,
   fun t k v h => keysUnique_setdefault t k v h,
   fun t k h => keysUnique_dpop t k h⟩

theorem C9_pop_idempotent_witness :
    dpop ([(FactoryKey.di_data_service, 0)] : OverrideTable)
        FactoryKey.provide_base_service_singleton = [(FactoryKey.di_data_service, 0)]
    ∧ KeysUnique (setdefault ([] : OverrideTable) FactoryKey.di_data_service 5) :=
  ⟨C9_pop_idempotent.1 _ _ (by decide),
   C9_pop_idempotent.2.2.2.1 [] FactoryKey.di_data_service 5 keysUnique_nil⟩

/-- C10: `mock_db_request` is total when the debug header is set (to a
truthy value) but no request object is bound: it does not fault, it logs
the debug line with the caller host reported as "unknown", and it still
returns the normal payload `{"status": "ok"}`. -/
theorem C10_unbound_debug_total (h : String) (hne : h ≠ "") :
    App.mock_db_request { request := none, debugging_header := some h }
      = (["Debugging " ++ "'" ++ h ++ "'" ++ " for " ++ "unknown"],
         [("status", JsonVal.str "ok")]) := by
  simp [App.mock_db_request, App.debugLogs, App.hostOf, hne]

theorem C10_unbound_debug_total_witness :
    App.mock_db_request { request := none, debugging_header := some "dbg" }
      = (["Debugging " ++ "'" ++ "dbg" ++ "'" ++ " for " ++ "unknown"],
         [("status", JsonVal.str "ok")]) :=
  C10_unbound_debug_total "dbg" (by decide)

/-- C3 counterexample: in the `App` variant the class that handles
`GET /ping` is `AnalyticsService`, yet the finalize-stage value stored
under "service" is the fixed string "analytics", not the class name —
so the response's "service" value is not the name of the top-level
service type there. -/
theorem C3_counterexample :
    alookup (App.handlePing (App.appBoot { nextId := 0, objs := [] }).table
        { clientHost := none, debugging := none, xDebugging := none }
        (App.appBoot { nextId := 0, objs := [] }).store).payload "service"
      = some (JsonVal.str "analytics")
    ∧ "analytics" ≠ "AnalyticsService" := by
  decide

/-- C3 amended: for every request with a bound context the response
contains the key "service"; in the v1 (and v2) variants its value is the
handling instance's class name (`DataService` in the application), while
in the `App` variant it is the fixed string "analytics". -/
theorem C3_service_key (s1 : V1.ServiceV1) (r : Request) (h : s1.request = some r)
    (s2 : V2.ServiceV2) (b : App.BaseState) :
    (∃ lp, V1.get_payload s1 = Except.ok lp
        ∧ alookup lp.2 "service" = some (JsonVal.str s1.cls))
    ∧ alookup (V2.get_payload s2) "service" = some (JsonVal.str s2.cls)
    ∧ alookup (App.build_response b).2 "service" = some (JsonVal.str "analytics") := by
  refine ⟨?_, rfl, rfl⟩
  refine ⟨(V1.v1DebugLogs r,
    dictSet (dictSet [("rows", JsonVal.listStr ["mocked", "data"])] "enriched"
      (JsonVal.bool true)) "service" (JsonVal.str s1.cls)), ?_, rfl⟩
  unfold V1.get_payload V1.get_data V1.get_request
  rw [h]

/-- A concrete request used to instantiate theorems with hypotheses. -/
def sampleRequest : Request :=
  { clientHost := none, debugging := none, xDebugging := none }

/-- A concrete bound `test_1` service used to instantiate theorems. -/
def sampleV1 : V1.ServiceV1 :=
  { cls := "DataService", request := some sampleRequest }

theorem C3_service_key_witness :
    (∃ lp, V1.get_payload sampleV1
        = Except.ok lp ∧ alookup lp.2 "service" = some (JsonVal.str sampleV1.cls))
    ∧ alookup (V2.get_payload V2.singleton_service) "service"
        = some (JsonVal.str V2.singleton_service.cls)
    ∧ alookup (App.build_response App.newService).2 "service"
        = some (JsonVal.str "analytics") :=
  C3_service_key sampleV1 sampleRequest rfl V2.singleton_service App.newService

/-- C4 counterexample: in the `App` variant, invoking the fetch step on
a freshly constructed service — before any request context has been
bound — does not fail with any fault: it returns the normal payload
`{"status": "ok"}` (and emits no log). -/
theorem C4_counterexample :
    App.mock_db_request App.newService = ([], [("status", JsonVal.str "ok")]) := rfl

/-- C4 amended: in the v1 variant the fetch step faults (attribute error
on the unbound `None` request) exactly when no request context is bound,
and that is the only error condition of the v1 service chain; in the
`App` variant the fetch step never faults and always returns the normal
payload. -/
theorem C4_unbound_fetch (s1 : V1.ServiceV1) (b : App.BaseState) :
    (s1.request = none →
      V1.get_request s1
        = Except.error "AttributeError: NoneType object has no attribute headers")
    ∧ ((∃ e, V1.get_payload s1 = Except.error e) ↔ s1.request = none)
    ∧ (App.mock_db_request b).2 = [("status", JsonVal.str "ok")] := by
  refine ⟨?_, ?_, rfl⟩
  · intro h
    simp [V1.get_request, h]
  · cases hr : s1.request with
    | none => simp [V1.get_payload, V1.get_data, V1.get_request, hr]
    | some r => simp [V1.get_payload, V1.get_data, V1.get_request, hr]

theorem C4_unbound_fetch_witness :
    V1.get_request { cls := "DataService", request := none }
      = Except.error "AttributeError: NoneType object has no attribute headers" :=
  (C4_unbound_fetch { cls := "DataService", request := none } App.newService).1 rfl

/-- C5 counterexample: a request whose debug header is present but empty
(`X-Debugging: ""`) emits no debug log line, so "log line emitted iff the
debug header is present" is false — the code tests Python truthiness of
the header value, not presence. -/
theorem C5_counterexample :
    ¬ (((App.handlePing (App.appBoot { nextId := 0, objs := [] }).table
          { clientHost := none, debugging := none, xDebugging := some "" }
          (App.appBoot { nextId := 0, objs := [] }).store).logs ≠ [])
        ↔ ({ clientHost := none, debugging := none,
              xDebugging := some "" } : Request).xDebugging ≠ none) := by
  decide

/-- C5 amended: one `GET /ping` request performs exactly one fetch, whose
log lines it returns; no debug line is emitted when the header is absent
or empty, and exactly one line — carrying the header's value — is
emitted when the header has a non-empty value. -/
theorem C5_debug_log (w s : App.Store) (r : Request) (h : String) :
    (App.handlePing (App.appBoot w).table r s).logs
        = (App.mock_db_request (App.boundState r)).1
    ∧ (truthyOptStr r.xDebugging = false →
        (App.handlePing (App.appBoot w).table r s).logs = [])
    ∧ (r.xDebugging = some h → h ≠ "" →
        (App.handlePing (App.appBoot w).table r s).logs
          = ["Debugging " ++ "'" ++ h ++ "'" ++ " for " ++ App.hostOf (some r)]) := by
  have hb := App.handlePing_after_boot w s r
  rw [hb]
  refine ⟨rfl, ?_, ?_⟩
  · intro ht
    show App.debugLogs (App.boundState r) = []
    cases hx : r.xDebugging with
    | none => simp [App.debugLogs, App.boundState, hx]
    | some v =>
        have hv : v = "" := by simpa [truthyOptStr, hx] using ht
        simp [App.debugLogs, App.boundState, hx, hv]
  · intro hx hne
    show App.debugLogs (App.boundState r) = _
    simp [App.debugLogs, App.boundState, hx, hne]

theorem C5_debug_log_witness :
    (App.handlePing (App.appBoot { nextId := 0, objs := [] }).table
        { clientHost := some "1.2.3.4", debugging := none, xDebugging := some "dbg" }
        { nextId := 0, objs := [] }).logs
      = ["Debugging " ++ "'" ++ "dbg" ++ "'" ++ " for "
          ++ App.hostOf (some { clientHost := some "1.2.3.4", debugging := none,
                                xDebugging := some "dbg" })] :=
  (C5_debug_log { nextId := 0, objs := [] } { nextId := 0, objs := [] }
      { clientHost := some "1.2.3.4", debugging := none, xDebugging := some "dbg" }
      "dbg").2.2 rfl (by decide)

/-- C6 counterexample: the `App` variant's `GET /ping` body has keys
`status`, `audit`, `service` — it contains neither `rows` nor
`enriched`; the v2 body likewise has no `rows` key. -/
theorem C6_counterexample :
    alookup (App.handlePing (App.appBoot { nextId := 0, objs := [] }).table
        { clientHost := none, debugging := none, xDebugging := none }
        (App.appBoot { nextId := 0, objs := [] }).store).payload "rows" = none
    ∧ alookup (V2.get_payload V2.singleton_service) "rows" = none := by
  decide

/-- C6 amended: every variant's response contains the key "service"; the
full key sets differ per variant — v1: `rows`, `enriched`, `service`;
v2: `result`, `enriched`, `service` (no `rows`); `App`: `status`,
`audit`, `service` (neither `rows` nor `enriched`). -/
theorem C6_payload_keys (s1 : V1.ServiceV1) (r : Request) (h : s1.request = some r)
    (s2 : V2.ServiceV2) (b : App.BaseState) :
    (∃ lp, V1.get_payload s1 = Except.ok lp
        ∧ (alookup lp.2 "rows").isSome
        ∧ (alookup lp.2 "enriched").isSome
        ∧ (alookup lp.2 "service").isSome)
    ∧ (alookup (V2.get_payload s2) "result").isSome
    ∧ (alookup (V2.get_payload s2) "enriched").isSome
    ∧ (alookup (V2.get_payload s2) "service").isSome
    ∧ alookup (V2.get_payload s2) "rows" = none
    ∧ (alookup (App.build_response b).2 "status").isSome
    ∧ (alookup (App.build_response b).2 "audit").isSome
    ∧ (alookup (App.build_response b).2 "service").isSome
    ∧ alookup (App.build_response b).2 "rows" = none
    ∧ alookup (App.build_response b).2 "enriched" = none := by
  refine ⟨?_, rfl, rfl, rfl, rfl, rfl, rfl, rfl, rfl, rfl⟩
  refine ⟨(V1.v1DebugLogs r,
    dictSet (dictSet [("rows", JsonVal.listStr ["mocked", "data"])] "enriched"
      (JsonVal.bool true)) "service" (JsonVal.str s1.cls)), ?_, rfl, rfl, rfl⟩
  unfold V1.get_payload V1.get_data V1.get_request
  rw [h]

theorem C6_payload_keys_witness :
    alookup (V2.get_payload V2.singleton_service) "rows" = none :=
  (C6_payload_keys sampleV1 sampleRequest rfl V2.singleton_service
      App.newService).2.2.2.2.1

/-- C7 counterexample: the middle ("enrich") operation of the `App`
variant's chain, `gather_metrics`, does not add the boolean `enriched`
flag — the one field it adds is `audit` with value "complete". -/
theorem C7_counterexample :
    alookup (App.gather_metrics App.newService).2 "enriched" = none
    ∧ alookup (App.gather_metrics App.newService).2 "audit"
        = some (JsonVal.str "complete") := by
  decide

/-- C7 amended: each level's operation returns the level below's payload
with exactly one additional field set and every lower key-value pair
unchanged; the added fields are `enriched` (boolean) and `service` (the
class name) in v1 and v2, but `audit` ("complete") and `service`
("analytics") in the `App` variant. -/
theorem C7_layer_frame (s2 : V2.ServiceV2) (b : App.BaseState) (s1 : V1.ServiceV1) :
    ((∀ k, k ≠ "enriched" → alookup (V2.get_data s2) k = alookup (V2.get_request s2) k)
      ∧ alookup (V2.get_data s2) "enriched" = some (JsonVal.bool true)
      ∧ (V2.get_data s2).length = (V2.get_request s2).length + 1)
    ∧ ((∀ k, k ≠ "service" → alookup (V2.get_payload s2) k = alookup (V2.get_data s2) k)
      ∧ alookup (V2.get_payload s2) "service" = some (JsonVal.str s2.cls)
      ∧ (V2.get_payload s2).length = (V2.get_data s2).length + 1)
    ∧ ((∀ k, k ≠ "audit" →
          alookup (App.gather_metrics b).2 k = alookup (App.mock_db_request b).2 k)
      ∧ alookup (App.gather_metrics b).2 "audit" = some (JsonVal.str "complete")
      ∧ (App.gather_metrics b).2.length = (App.mock_db_request b).2.length + 1)
    ∧ ((∀ k, k ≠ "service" →
          alookup (App.build_response b).2 k = alookup (App.gather_metrics b).2 k)
      ∧ alookup (App.build_response b).2 "service" = some (JsonVal.str "analytics")
      ∧ (App.build_response b).2.length = (App.gather_metrics b).2.length + 1)
    ∧ (∀ lp lp2, V1.get_request s1 = Except.ok lp → V1.get_data s1 = Except.ok lp2 →
        lp2.1 = lp.1
        ∧ alookup lp2.2 "enriched" = some (JsonVal.bool true)
        ∧ (∀ k, k ≠ "enriched" → alookup lp2.2 k = alookup lp.2 k)
        ∧ lp2.2.length = lp.2.length + 1)
    ∧ (∀ lp2 lp3, V1.get_data s1 = Except.ok lp2 → V1.get_payload s1 = Except.ok lp3 →
        lp3.1 = lp2.1
        ∧ alookup lp3.2 "service" = some (JsonVal.str s1.cls)
        ∧ (∀ k, k ≠ "service" → alookup lp3.2 k = alookup lp2.2 k)
        ∧ lp3.2.length = lp2.2.length + 1) := by
  refine ⟨⟨fun k hk => alookup_dictSet_ne _ _ _ _ hk, rfl, rfl⟩,
          ⟨fun k hk => alookup_dictSet_ne _ _ _ _ hk, rfl, rfl⟩,
          ⟨fun k hk => alookup_dictSet_ne _ _ _ _ hk, rfl, rfl⟩,
          ⟨fun k hk => alookup_dictSet_ne _ _ _ _ hk, rfl, rfl⟩, ?_, ?_⟩
  · intro lp lp2 h1 h2
    cases hr : s1.request with
    | none => simp [V1.get_request, hr] at h1
    | some r =>
        simp only [V1.get_request, hr, Except.ok.injEq] at h1
        simp only [V1.get_data, V1.get_request, hr, Except.ok.injEq] at h2
        subst h1
        subst h2
        exact ⟨rfl, rfl, fun k hk => alookup_dictSet_ne _ _ _ _ hk, rfl⟩
  · intro lp2 lp3 h2 h3
    cases hr : s1.request with
    | none => simp [V1.get_data, V1.get_request, hr] at h2
    | some r =>
        simp only [V1.get_data, V1.get_request, hr, Except.ok.injEq] at h2
        simp only [V1.get_payload, V1.get_data, V1.get_request, hr, Except.ok.injEq] at h3
        subst h2
        subst h3
        exact ⟨rfl, rfl, fun k hk => alookup_dictSet_ne _ _ _ _ hk, rfl⟩

theorem C7_layer_frame_witness :
    alookup (V2.get_data V2.singleton_service) "name"
      = alookup (V2.get_request V2.singleton_service) "name" :=
  (C7_layer_frame V2.singleton_service App.newService sampleV1).1.1 "name" (by decide)

/-- C8: a request handled while the startup overrides are installed
returns the analytics singleton itself, leaves every singleton holding
exactly the rebound per-request context (the request and its debug
header — the only two fields of the service state), allocates nothing,
and changes no other object in the store. -/
theorem C8_rebind_frame (w s : App.Store) (r : Request) (i : Nat)
    (h1 : i ≠ (App.appBoot w).baseId) (h2 : i ≠ (App.appBoot w).auditId)
    (h3 : i ≠ (App.appBoot w).analyticsId) :
    (App.handlePing (App.appBoot w).table r s).serviceId = (App.appBoot w).analyticsId
    ∧ App.getObj (App.handlePing (App.appBoot w).table r s).store (App.appBoot w).analyticsId
        = App.boundState r
    ∧ App.getObj (App.handlePing (App.appBoot w).table r s).store (App.appBoot w).baseId
        = App.boundState r
    ∧ App.getObj (App.handlePing (App.appBoot w).table r s).store (App.appBoot w).auditId
        = App.boundState r
    ∧ (App.handlePing (App.appBoot w).table r s).store.nextId = s.nextId
    ∧ alookup (App.handlePing (App.appBoot w).table r s).store.objs i = alookup s.objs i := by
  have eB : (App.appBoot w).baseId = w.nextId := rfl
  have eA : (App.appBoot w).auditId = w.nextId + 1 := rfl
  have eN : (App.appBoot w).analyticsId = w.nextId + 2 := rfl
  rw [eB] at h1
  rw [eA] at h2
  rw [eN] at h3
  have hb := App.handlePing_after_boot w s r
  rw [hb, eB, eA, eN]
  have ha : (w.nextId : Nat) ≠ w.nextId + 2 := by omega
  have hc : (w.nextId : Nat) ≠ w.nextId + 1 := by omega
  have hd : (w.nextId + 1 : Nat) ≠ w.nextId + 2 := by omega
  refine ⟨rfl, ?_, ?_, ?_, rfl, ?_⟩
  · simp [App.getObj, alookup_dictSet_self]
  · simp [App.getObj, alookup_dictSet_ne _ _ _ _ ha, alookup_dictSet_ne _ _ _ _ hc,
      alookup_dictSet_self]
  · simp [App.getObj, alookup_dictSet_ne _ _ _ _ hd, alookup_dictSet_self]
  · show alookup (dictSet (dictSet (dictSet s.objs w.nextId (App.boundState r))
        (w.nextId + 1) (App.boundState r)) (w.nextId + 2) (App.boundState r)) i
      = alookup s.objs i
    rw [alookup_dictSet_ne _ _ _ _ h3, alookup_dictSet_ne _ _ _ _ h2,
      alookup_dictSet_ne _ _ _ _ h1]

theorem C8_rebind_frame_witness :
    alookup (App.handlePing (App.appBoot { nextId := 0, objs := [] }).table
        sampleRequest { nextId := 0, objs := [] }).store.objs 7
      = alookup ({ nextId := 0, objs := [] } : App.Store).objs 7 :=
  (C8_rebind_frame { nextId := 0, objs := [] } { nextId := 0, objs := [] }
      sampleRequest 7 (by decide) (by decide) (by decide)).2.2.2.2.2
